import Mathlib

/-
Verification of the binding and policy layer of rust-bitcoinconsensus
(src/src/lib.rs): the soft-fork flag policy `height_to_flags`, the public
entry points `verify` and `verify_with_flags`, and the `Error` taxonomy.
The native engine reached through the FFI is an external collaborator and
is modelled as an arbitrary behaviour: a function from the argument tuple
handed across the boundary, together with the current value of the error
out-parameter, to the integer return code and the final value of the
out-parameter.
-/

set_option maxHeartbeats 1600000

namespace BitcoinConsensus

/-- Do not enable any verification (`VERIFY_NONE` in lib.rs). -/
def VERIFY_NONE : Nat := 0

/-- Evaluate P2SH (BIP16) subscripts (`1 << 0`). -/
def VERIFY_P2SH : Nat := 1 <<< 0

/-- Enforce strict DER (BIP66) compliance (`1 << 2`). -/
def VERIFY_DERSIG : Nat := 1 <<< 2

/-- Enforce NULLDUMMY (BIP147) (`1 << 4`). -/
def VERIFY_NULLDUMMY : Nat := 1 <<< 4

/-- Enable CHECKLOCKTIMEVERIFY (BIP65) (`1 << 9`). -/
def VERIFY_CHECKLOCKTIMEVERIFY : Nat := 1 <<< 9

/-- Enable CHECKSEQUENCEVERIFY (BIP112) (`1 << 10`). -/
def VERIFY_CHECKSEQUENCEVERIFY : Nat := 1 <<< 10

/-- Enable WITNESS (BIP141) (`1 << 11`). -/
def VERIFY_WITNESS : Nat := 1 <<< 11

/-- The OR of every defined rule bit (`VERIFY_ALL` in lib.rs). -/
def VERIFY_ALL : Nat :=
  VERIFY_P2SH ||| VERIFY_DERSIG ||| VERIFY_NULLDUMMY |||
  VERIFY_CHECKLOCKTIMEVERIFY ||| VERIFY_CHECKSEQUENCEVERIFY ||| VERIFY_WITNESS

/-- Computes flags for soft fork activation heights on the Bitcoin network
(`height_to_flags` in lib.rs, lines 45-65): start from `VERIFY_NONE` and OR
in each rule whose activation threshold is at or below `height`. -/
def height_to_flags (height : Nat) : Nat :=
  let flag := VERIFY_NONE
  let flag := if height ≥ 173805 then flag ||| VERIFY_P2SH else flag
  let flag := if height ≥ 363725 then flag ||| VERIFY_DERSIG else flag
  let flag := if height ≥ 388381 then flag ||| VERIFY_CHECKLOCKTIMEVERIFY else flag
  let flag := if height ≥ 419328 then flag ||| VERIFY_CHECKSEQUENCEVERIFY else flag
  let flag := if height ≥ 481824 then flag ||| (VERIFY_NULLDUMMY ||| VERIFY_WITNESS) else flag
  flag

/-- Errors returned by libbitcoinconsensus (`Error` in lib.rs, `repr(C)`,
members in protocol order). -/
inductive Error where
| ERR_SCRIPT
| ERR_TX_INDEX
| ERR_TX_SIZE_MISMATCH
| ERR_TX_DESERIALIZE
| ERR_AMOUNT_REQUIRED
| ERR_INVALID_FLAGS
deriving DecidableEq, Repr

/-- The `repr(C)` discriminant of each `Error` member: `ERR_SCRIPT = 0` is
written explicitly in lib.rs and the rest follow by the implicit C-style
increment. -/
def Error.toNat : Error → Nat
| Error.ERR_SCRIPT => 0
| Error.ERR_TX_INDEX => 1
| Error.ERR_TX_SIZE_MISMATCH => 2
| Error.ERR_TX_DESERIALIZE => 3
| Error.ERR_AMOUNT_REQUIRED => 4
| Error.ERR_INVALID_FLAGS => 5

/-- Modelled from the spec: the modulus of the native unsigned-width integer
of the engine (`c_uint` from the types module of the crate, which is absent
from src/). The spec calls it the native unsigned width; the C unsigned int
is 32 bits wide on every supported target, so a Rust `as c_uint` cast
truncates to this width. -/
def c_uint_mod : Nat := 2 ^ 32

/-- The argument tuple that `verify_with_flags` hands across the FFI
boundary to `ffi::bitcoinconsensus_verify_script_with_amount` (lib.rs,
lines 123-132): the two borrowed byte buffers, their lengths cast to
`c_uint`, the amount, the input index cast to `c_uint`, and the flags. -/
structure FFIArgs where
  script : List Nat
  scriptLen : Nat
  amount : Nat
  tx : List Nat
  txLen : Nat
  nIn : Nat
  flags : Nat
deriving DecidableEq, Repr

/-- A behaviour of the external native engine: from the FFI arguments and
the value of the error out-parameter at the time of the call, the integer
return code and the out-parameter value after the call (an engine that does
not write the out-parameter returns it unchanged). -/
def EngineBehavior : Type := FFIArgs → Error → Int × Error

/-- Builds the FFI argument tuple exactly as `verify_with_flags` does in
lib.rs lines 123-132: buffers are passed by pointer (kept whole here), the
two lengths and the input index go through `as c_uint` (truncation to the
native width), `amount` is passed as u64 unchanged, and `flags` goes
through the identity cast `u32 as c_uint`. -/
def mkFFIArgs (spent_output_script : List Nat) (amount : Nat)
    (spending_transaction : List Nat) (input_index : Nat) (flags : Nat) : FFIArgs :=
  { script := spent_output_script
    scriptLen := spent_output_script.length % c_uint_mod
    amount := amount
    tx := spending_transaction
    txLen := spending_transaction.length % c_uint_mod
    nIn := input_index % c_uint_mod
    flags := flags }

/-- `verify_with_flags` from lib.rs lines 113-139, parameterized by the
behaviour of the external engine: initialize the error out-parameter to
`Error.ERR_SCRIPT`, call the engine, and return `ok` exactly when the
return code is 1, otherwise the out-parameter value wrapped in `error`. -/
def verify_with_flags (eng : EngineBehavior) (spent_output_script : List Nat)
    (amount : Nat) (spending_transaction : List Nat) (input_index : Nat)
    (flags : Nat) : Except Error Unit :=
  let error := Error.ERR_SCRIPT
  let r := eng (mkFFIArgs spent_output_script amount spending_transaction input_index flags) error
  if r.1 ≠ 1 then Except.error r.2 else Except.ok ()

/-- `verify` from lib.rs lines 103-110: delegates to `verify_with_flags`
with `VERIFY_ALL`. -/
def verify (eng : EngineBehavior) (spent_output : List Nat) (amount : Nat)
    (spending_transaction : List Nat) (input_index : Nat) : Except Error Unit :=
  verify_with_flags eng spent_output amount spending_transaction input_index VERIFY_ALL

/-- Two successive calls of `verify_with_flags` with the same arguments, as
a pair of results; neither lib.rs nor the modelled engine behaviour holds
mutable state between the calls. -/
def verify_twice (eng : EngineBehavior) (s : List Nat) (a : Nat) (t : List Nat)
    (i f : Nat) : Except Error Unit × Except Error Unit :=
  (verify_with_flags eng s a t i f, verify_with_flags eng s a t i f)

/-- An engine behaviour that always reports failure (return code 0) and
never writes the error out-parameter. -/
def engConst0 : EngineBehavior := fun _ e => ((0 : Int), e)

/-- An engine behaviour that reports success exactly when the script length
it is handed equals 1, and never writes the error out-parameter; it probes
which length value crosses the FFI boundary. -/
def engLenProbe : EngineBehavior := fun args e => (if args.scriptLen = 1 then 1 else 0, e)

/-- Claim C1: for every engine behaviour and all arguments, `verify` returns
exactly the result of `verify_with_flags` at the same arguments with
`VERIFY_ALL`. -/
theorem verify_eq_verify_with_flags_all (eng : EngineBehavior) (s : List Nat)
    (a : Nat) (t : List Nat) (i : Nat) :
    verify eng s a t i = verify_with_flags eng s a t i VERIFY_ALL := rfl

/-- The chain of masks `height_to_flags` can produce, indexed by how many
activation thresholds have been passed. -/
def activation_chain (i : Nat) : Nat :=
  if i = 0 then 0 else if i = 1 then 1 else if i = 2 then 5
  else if i = 3 then 517 else if i = 4 then 1541 else 3605

/-- How many of the five activation thresholds are at or below `h`. -/
def activation_count (h : Nat) : Nat :=
  (if h ≥ 173805 then 1 else 0) + (if h ≥ 363725 then 1 else 0) +
  (if h ≥ 388381 then 1 else 0) + (if h ≥ 419328 then 1 else 0) +
  (if h ≥ 481824 then 1 else 0)

lemma height_to_flags_eq_chain (h : Nat) :
    height_to_flags h = activation_chain (activation_count h) := by
  simp only [height_to_flags, activation_count, activation_chain, VERIFY_NONE,
    VERIFY_P2SH, VERIFY_DERSIG, VERIFY_NULLDUMMY, VERIFY_CHECKLOCKTIMEVERIFY,
    VERIFY_CHECKSEQUENCEVERIFY, VERIFY_WITNESS]
  split_ifs <;> first | assumption | decide | omega

lemma indicator_mono (t h1 h2 : Nat) (hle : h1 ≤ h2) :
    (if h1 ≥ t then 1 else 0) ≤ (if h2 ≥ t then (1 : Nat) else 0) := by
  split_ifs <;> omega

lemma activation_count_mono (h1 h2 : Nat) (hle : h1 ≤ h2) :
    activation_count h1 ≤ activation_count h2 := by
  unfold activation_count
  exact add_le_add (add_le_add (add_le_add (add_le_add
    (indicator_mono 173805 h1 h2 hle) (indicator_mono 363725 h1 h2 hle))
    (indicator_mono 388381 h1 h2 hle)) (indicator_mono 419328 h1 h2 hle))
    (indicator_mono 481824 h1 h2 hle)

lemma activation_chain_subset (i j : Nat) (hij : i ≤ j) :
    activation_chain i &&& activation_chain j = activation_chain i := by
  unfold activation_chain
  split_ifs <;> first | assumption | decide | omega

/-- Claim C2: `height_to_flags` is monotonic: for all heights `h1 ≤ h2` the
mask at `h1` is a bitwise subset of the mask at `h2`. -/
theorem height_to_flags_monotone (h1 h2 : Nat) (hle : h1 ≤ h2) :
    height_to_flags h1 &&& height_to_flags h2 = height_to_flags h1 := by
  rw [height_to_flags_eq_chain, height_to_flags_eq_chain]
  exact activation_chain_subset _ _ (activation_count_mono h1 h2 hle)

/-- Witness for claim C2 at the concrete pair 100000 ≤ 500000. -/
theorem height_to_flags_monotone_witness :
    100000 ≤ 500000 ∧
    height_to_flags 100000 &&& height_to_flags 500000 = height_to_flags 100000 :=
  ⟨by decide, height_to_flags_monotone 100000 500000 (by decide)⟩

/-- Claim C3: `height_to_flags 0` is `VERIFY_NONE`, and at or above the
maximum activation threshold 481824 it is `VERIFY_ALL`. -/
theorem height_to_flags_bounds :
    height_to_flags 0 = VERIFY_NONE ∧
    ∀ h : Nat, 481824 ≤ h → height_to_flags h = VERIFY_ALL := by
  constructor
  · decide
  · intro h hh
    simp only [height_to_flags, VERIFY_NONE, VERIFY_P2SH, VERIFY_DERSIG,
      VERIFY_NULLDUMMY, VERIFY_CHECKLOCKTIMEVERIFY, VERIFY_CHECKSEQUENCEVERIFY,
      VERIFY_WITNESS, VERIFY_ALL]
    split_ifs <;> first | assumption | decide | omega

/-- Witness for claim C3 at the concrete height 481824. -/
theorem height_to_flags_bounds_witness :
    height_to_flags 0 = VERIFY_NONE ∧
    481824 ≤ 481824 ∧ height_to_flags 481824 = VERIFY_ALL :=
  ⟨height_to_flags_bounds.1, by decide, height_to_flags_bounds.2 481824 (by decide)⟩

/-- Claim C9: `height_to_flags` never sets a bit outside `VERIFY_ALL`: the
AND of the mask with the 32-bit complement of `VERIFY_ALL` is zero. -/
theorem height_to_flags_subset_verify_all (h : Nat) :
    height_to_flags h &&& ((c_uint_mod - 1) ^^^ VERIFY_ALL) = 0 := by
  simp only [height_to_flags, VERIFY_NONE, VERIFY_P2SH, VERIFY_DERSIG,
    VERIFY_NULLDUMMY, VERIFY_CHECKLOCKTIMEVERIFY, VERIFY_CHECKSEQUENCEVERIFY,
    VERIFY_WITNESS, VERIFY_ALL, c_uint_mod]
  split_ifs <;> decide

/-- Claim C4: `verify_with_flags` returns `ok` exactly when the return code
of the engine is 1, and for any other return code it returns `error`
carrying the value held in the out-parameter after the call. -/
theorem verify_with_flags_ret_protocol (eng : EngineBehavior) (s : List Nat)
    (a : Nat) (t : List Nat) (i f : Nat) :
    (verify_with_flags eng s a t i f = Except.ok () ↔
      (eng (mkFFIArgs s a t i f) Error.ERR_SCRIPT).1 = 1) ∧
    ((eng (mkFFIArgs s a t i f) Error.ERR_SCRIPT).1 ≠ 1 →
      verify_with_flags eng s a t i f =
        Except.error (eng (mkFFIArgs s a t i f) Error.ERR_SCRIPT).2) := by
  by_cases hret : (eng (mkFFIArgs s a t i f) Error.ERR_SCRIPT).1 = 1 <;>
    simp [verify_with_flags, hret]

/-- Witness for claim C4 at a concrete engine that returns code 0, with
empty buffers. -/
theorem verify_with_flags_ret_protocol_witness :
    (verify_with_flags engConst0 [] 0 [] 0 0 = Except.ok () ↔
      (engConst0 (mkFFIArgs [] 0 [] 0 0) Error.ERR_SCRIPT).1 = 1) ∧
    verify_with_flags engConst0 [] 0 [] 0 0 =
      Except.error (engConst0 (mkFFIArgs [] 0 [] 0 0) Error.ERR_SCRIPT).2 :=
  ⟨(verify_with_flags_ret_protocol engConst0 [] 0 [] 0 0).1,
   (verify_with_flags_ret_protocol engConst0 [] 0 [] 0 0).2 (by decide)⟩

/-- Claim C5: the out-parameter starts as `Error.ERR_SCRIPT`, so an engine
that never writes it and reports a non-1 return code makes
`verify_with_flags` surface `Except.error Error.ERR_SCRIPT`, a defined
value. -/
theorem verify_with_flags_unwritten_default (eng : EngineBehavior)
    (s : List Nat) (a : Nat) (t : List Nat) (i f : Nat)
    (hnw : ∀ args e, (eng args e).2 = e)
    (hfail : (eng (mkFFIArgs s a t i f) Error.ERR_SCRIPT).1 ≠ 1) :
    verify_with_flags eng s a t i f = Except.error Error.ERR_SCRIPT := by
  simp [verify_with_flags, hfail, hnw]

/-- Witness for claim C5 at the non-writing, always-failing engine with
empty buffers. -/
theorem verify_with_flags_unwritten_default_witness :
    verify_with_flags engConst0 [] 0 [] 0 0 = Except.error Error.ERR_SCRIPT :=
  verify_with_flags_unwritten_default engConst0 [] 0 [] 0 0
    (fun _ _ => rfl) (by decide)

lemma engLenProbe_fst (args : FFIArgs) (e : Error) :
    (engLenProbe args e).1 = if args.scriptLen = 1 then 1 else 0 := rfl

lemma mkFFIArgs_scriptLen (s : List Nat) (a : Nat) (t : List Nat) (i f : Nat) :
    (mkFFIArgs s a t i f).scriptLen = s.length % c_uint_mod := rfl

lemma verify_with_flags_ok_of_ret_one (eng : EngineBehavior) (s : List Nat)
    (a : Nat) (t : List Nat) (i f : Nat)
    (hret : (eng (mkFFIArgs s a t i f) Error.ERR_SCRIPT).1 = 1) :
    verify_with_flags eng s a t i f = Except.ok () := by
  simp [verify_with_flags, hret]

/-- Claim C6 counterexample: a spent-output script of length 2^32 + 1, one
byte past what a 32-bit `c_uint` can represent, does not abort: the length
is silently truncated to 1 by the `as c_uint` cast and the call completes
with a result computed from that truncated length (the probing engine sees
length 1 and reports success). -/
theorem overlong_script_silent_truncation :
    (List.replicate (2 ^ 32 + 1) (0 : Nat)).length = 2 ^ 32 + 1 ∧
    c_uint_mod - 1 < (List.replicate (2 ^ 32 + 1) (0 : Nat)).length ∧
    (mkFFIArgs (List.replicate (2 ^ 32 + 1) (0 : Nat)) 0 [] 0 VERIFY_ALL).scriptLen = 1 ∧
    verify_with_flags engLenProbe (List.replicate (2 ^ 32 + 1) (0 : Nat)) 0 [] 0 VERIFY_ALL =
      Except.ok () := by
  have hlen : (List.replicate (2 ^ 32 + 1) (0 : Nat)).length = 2 ^ 32 + 1 :=
    List.length_replicate _ _
  have htr : (mkFFIArgs (List.replicate (2 ^ 32 + 1) (0 : Nat)) 0 [] 0 VERIFY_ALL).scriptLen = 1 := by
    rw [mkFFIArgs_scriptLen, hlen]
    unfold c_uint_mod
    omega
  refine ⟨hlen, ?_, htr, ?_⟩
  · rw [hlen]; unfold c_uint_mod; omega
  · refine verify_with_flags_ok_of_ret_one _ _ _ _ _ _ ?_
    rw [engLenProbe_fst, htr]
    decide

/-- Claim C6 amended: the two buffer lengths cross the FFI boundary through
the truncating `as c_uint` cast (reduction modulo 2^32), and the call never
aborts: for every engine behaviour and all arguments `verify_with_flags`
returns an ordinary `ok` or `error` result. -/
theorem length_cast_truncates_no_abort (s : List Nat) (a : Nat) (t : List Nat)
    (i f : Nat) (eng : EngineBehavior) :
    (mkFFIArgs s a t i f).scriptLen = s.length % c_uint_mod ∧
    (mkFFIArgs s a t i f).txLen = t.length % c_uint_mod ∧
    (verify_with_flags eng s a t i f = Except.ok () ∨
      ∃ e, verify_with_flags eng s a t i f = Except.error e) := by
  refine ⟨rfl, rfl, ?_⟩
  generalize verify_with_flags eng s a t i f = v
  cases v with
  | ok u => cases u; exact Or.inl rfl
  | error e => exact Or.inr ⟨e, rfl⟩

/-- Claim C7: verification is deterministic: two successive calls with
identical arguments (same buffers, amount, index and flags, same engine
behaviour, no state in between) produce identical results. -/
theorem verify_twice_deterministic (eng : EngineBehavior) (s : List Nat)
    (a : Nat) (t : List Nat) (i f : Nat) :
    (verify_twice eng s a t i f).1 = (verify_twice eng s a t i f).2 := rfl

/-- Claim C8: `Error` is a closed enumeration of exactly six members whose
`repr(C)` discriminants are, in order, 0 through 5, with `ERR_SCRIPT` the
designated zero member. -/
theorem error_taxonomy_closed_six :
    Error.toNat Error.ERR_SCRIPT = 0 ∧
    Error.toNat Error.ERR_TX_INDEX = 1 ∧
    Error.toNat Error.ERR_TX_SIZE_MISMATCH = 2 ∧
    Error.toNat Error.ERR_TX_DESERIALIZE = 3 ∧
    Error.toNat Error.ERR_AMOUNT_REQUIRED = 4 ∧
    Error.toNat Error.ERR_INVALID_FLAGS = 5 ∧
    (∀ e : Error, e = Error.ERR_SCRIPT ∨ e = Error.ERR_TX_INDEX ∨
      e = Error.ERR_TX_SIZE_MISMATCH ∨ e = Error.ERR_TX_DESERIALIZE ∨
      e = Error.ERR_AMOUNT_REQUIRED ∨ e = Error.ERR_INVALID_FLAGS) := by
  refine ⟨rfl, rfl, rfl, rfl, rfl, rfl, ?_⟩
  intro e
  cases e <;> simp

/-- Claim C10: the input index crosses the FFI boundary through the
truncating `as c_uint` cast: the value handed to the engine is
`input_index % 2^32`, and the call completes with an ordinary result (no
error of its own, no abort) even when the index exceeds the 32-bit width. -/
theorem input_index_cast_truncates (s : List Nat) (a : Nat) (t : List Nat)
    (i f : Nat) (eng : EngineBehavior) :
    (mkFFIArgs s a t i f).nIn = i % c_uint_mod ∧
    (verify_with_flags eng s a t i f = Except.ok () ∨
      ∃ e, verify_with_flags eng s a t i f = Except.error e) := by
  refine ⟨rfl, ?_⟩
  generalize verify_with_flags eng s a t i f = v
  cases v with
  | ok u => cases u; exact Or.inl rfl
  | error e => exact Or.inr ⟨e, rfl⟩

end BitcoinConsensus
